import Mathlib

/-!
# Verification of the compose-to-cluster CLI adapter

A shallow embedding of the repository's `app` package (file `app/app.go`):
the compose-to-cluster resource conversion (`ProjectKuber`), the scale
argument parser (`ProjectScale`), the delete confirmation callback
(`ProjectDelete`), the foreground signal handler of `ProjectUp`, and the
argument guard of `ProjectRun`.  Go machine integers are modelled as `Int`
with the 64-bit range check where `strconv` performs one; fallible Go code
(returning `err`) is modelled with `Except`/`Option`; `logrus.Fatalf`
(immediate process termination) is modelled as an error value that aborts
the surrounding computation before any later effect.
-/

/-- Go `strconv.Atoi` error kinds (`ErrSyntax`, `ErrRange`). -/
inductive AtoiError
  | notNumeric
  | outOfRange
deriving DecidableEq

/-- Decimal digit value of a character, `none` for a non-digit. -/
def digitVal (c : Char) : Option Nat :=
  if '0' ≤ c ∧ c ≤ '9' then some (c.toNat - '0'.toNat) else none

/-- Accumulate a non-empty run of decimal digits, `none` on a non-digit
or on the empty list. -/
def parseDigits : List Char → Option Nat
  | [] => none
  | cs => cs.foldlM (fun n c => (digitVal c).map (fun d => n * 10 + d)) 0

/-- Largest Go `int` (64-bit) value. -/
def int64Max : Int := 2 ^ 63 - 1

/-- Smallest Go `int` (64-bit) value. -/
def int64Min : Int := -(2 ^ 63)

/-- Go `strconv.Atoi`: an optional sign followed by at least one decimal
digit, base 10, with the 64-bit `int` range check
(`strconv.ParseInt(s, 10, 0)` on a 64-bit platform). -/
def goAtoi (s : String) : Except AtoiError Int :=
  match s.toList with
  | [] => .error .notNumeric
  | c :: rest =>
    let signedDigits : Bool × List Char :=
      if c = '-' then (true, rest)
      else if c = '+' then (false, rest)
      else (false, c :: rest)
    match parseDigits signedDigits.2 with
    | none => .error .notNumeric
    | some n =>
      let v : Int := if signedDigits.1 then -(n : Int) else (n : Int)
      if v < int64Min ∨ int64Max < v then .error .outOfRange else .ok v

/-- A libcompose service configuration, restricted to the fields
`ProjectKuber` reads: `Image`, `Ports`, `Restart`. -/
structure ServiceConfig where
  image : String
  ports : List String
  restart : String
deriving DecidableEq

namespace api

/-- `k8s.io/kubernetes/pkg/api` `TypeMeta`. -/
structure TypeMeta where
  kind : String
  apiVersion : String
deriving DecidableEq

/-- `api.ObjectMeta`, restricted to the fields the code sets. -/
structure ObjectMeta where
  name : String
  labels : List (String × String)
deriving DecidableEq

/-- `api.ContainerPort`, restricted to the field the code sets. -/
structure ContainerPort where
  containerPort : Int
deriving DecidableEq

/-- `api.ServicePort`, restricted to the field the code sets. -/
structure ServicePort where
  port : Int
deriving DecidableEq

/-- `api.Container`, restricted to the fields the code sets. -/
structure Container where
  name : String
  image : String
  ports : List ContainerPort := []
deriving DecidableEq

/-- In the k8s api package `RestartPolicy` is a string type; its zero
value is the empty string. -/
def RestartPolicyAlways : String := "Always"

/-- The `Never` restart policy constant. -/
def RestartPolicyNever : String := "Never"

/-- The `OnFailure` restart policy constant. -/
def RestartPolicyOnFailure : String := "OnFailure"

/-- `api.PodSpec`, restricted to the fields the code sets.  The restart
policy starts at the string zero value and is assigned later. -/
structure PodSpec where
  containers : List Container
  restartPolicy : String := ""
deriving DecidableEq

/-- `api.PodTemplateSpec`, restricted to the fields the code sets. -/
structure PodTemplateSpec where
  objectMeta : ObjectMeta
  spec : PodSpec
deriving DecidableEq

/-- `api.ReplicationControllerSpec`, restricted to the fields the code sets. -/
structure ReplicationControllerSpec where
  replicas : Int
  selector : List (String × String)
  template : PodTemplateSpec
deriving DecidableEq

/-- `api.ReplicationController`, restricted to the fields the code sets. -/
structure ReplicationController where
  typeMeta : TypeMeta
  objectMeta : ObjectMeta
  spec : ReplicationControllerSpec
deriving DecidableEq

/-- `api.ServiceSpec`, restricted to the fields the code sets. -/
structure ServiceSpec where
  selector : List (String × String)
  ports : List ServicePort := []
deriving DecidableEq

/-- `api.Service`, restricted to the fields the code sets. -/
structure Service where
  typeMeta : TypeMeta
  objectMeta : ObjectMeta
  spec : ServiceSpec
deriving DecidableEq

end api

/-- The `logrus.Fatalf` calls inside the per-service body of
`ProjectKuber`: an invalid container port or an unknown restart policy.
(`Fatalf` terminates the process at once.) -/
inductive Fatal
  | invalidPort (port : String) (serviceName : String)
  | unknownRestartPolicy (restart : String) (serviceName : String)
deriving DecidableEq

/-- The `rc := &api.ReplicationController{...}` literal of `ProjectKuber`
(app.go lines 111-137). -/
def buildRC (name : String) (service : ServiceConfig) : api.ReplicationController :=
  { typeMeta := { kind := "ReplicationController", apiVersion := "v1" }
    objectMeta := { name := name, labels := [("service", name)] }
    spec :=
      { replicas := 1
        selector := [("service", name)]
        template :=
          { objectMeta := { name := "", labels := [("service", name)] }
            spec := { containers := [{ name := name, image := service.image }] } } } }

/-- The `sc := &api.Service{...}` literal of `ProjectKuber`
(app.go lines 138-150). -/
def buildSC (name : String) (_service : ServiceConfig) : api.Service :=
  { typeMeta := { kind := "Service", apiVersion := "v1" }
    objectMeta := { name := name, labels := [("service", name)] }
    spec := { selector := [("service", name)] } }

/-- The container-port loop of `ProjectKuber` (lines 153-160):
`strconv.Atoi` each port string, `logrus.Fatalf` on error, append
`api.ContainerPort{ContainerPort: portNumber}` otherwise. -/
def buildContainerPorts (serviceName : String) : List String → Except Fatal (List api.ContainerPort)
  | [] => .ok []
  | port :: rest =>
    match goAtoi port with
    | .error _ => .error (.invalidPort port serviceName)
    | .ok portNumber =>
      match buildContainerPorts serviceName rest with
      | .error f => .error f
      | .ok ps => .ok ({ containerPort := portNumber } :: ps)

/-- The service-port loop of `ProjectKuber` (lines 165-172): same parse,
appending `api.ServicePort{Port: portNumber}`. -/
def buildServicePorts (serviceName : String) : List String → Except Fatal (List api.ServicePort)
  | [] => .ok []
  | port :: rest =>
    match goAtoi port with
    | .error _ => .error (.invalidPort port serviceName)
    | .ok portNumber =>
      match buildServicePorts serviceName rest with
      | .error f => .error f
      | .ok ps => .ok ({ port := portNumber } :: ps)

/-- The assignment `rc.Spec.Template.Spec.Containers[0].Ports = ports`
(line 162).  The container list built by `buildRC` is a singleton, so the
index-0 update rewrites its head. -/
def setContainer0Ports (rc : api.ReplicationController) (ports : List api.ContainerPort) :
    api.ReplicationController :=
  { rc with spec :=
    { rc.spec with template :=
      { rc.spec.template with spec :=
        { rc.spec.template.spec with containers :=
          match rc.spec.template.spec.containers with
          | [] => []
          | c :: cs => { c with ports := ports } :: cs } } } }

/-- The assignment `sc.Spec.Ports = servicePorts` (line 173). -/
def setServicePorts (sc : api.Service) (servicePorts : List api.ServicePort) : api.Service :=
  { sc with spec := { sc.spec with ports := servicePorts } }

/-- The restart-policy `switch service.Restart` of `ProjectKuber`
(lines 176-185): `""`/`"always"` map to `Always`, `"no"` to `Never`,
`"on-failure"` to `OnFailure`, anything else is `logrus.Fatalf`. -/
def restartPolicyFor (serviceName : String) (restart : String) : Except Fatal String :=
  if restart = "" ∨ restart = "always" then .ok api.RestartPolicyAlways
  else if restart = "no" then .ok api.RestartPolicyNever
  else if restart = "on-failure" then .ok api.RestartPolicyOnFailure
  else .error (.unknownRestartPolicy restart serviceName)

/-- The assignment `rc.Spec.Template.Spec.RestartPolicy = ...` in the
switch branches. -/
def setRestartPolicy (rc : api.ReplicationController) (policy : String) :
    api.ReplicationController :=
  { rc with spec :=
    { rc.spec with template :=
      { rc.spec.template with spec :=
        { rc.spec.template.spec with restartPolicy := policy } } } }

/-- The per-service construction part of the `ProjectKuber` loop body
(lines 111-190), in source order: build both descriptor literals, parse
and install the container ports, parse and install the service ports, map
the restart policy.  Any `logrus.Fatalf` aborts with a `Fatal` before the
API submissions.  (`json.MarshalIndent` of these structures, line 187,
cannot fail, so its error branch is unreachable.) -/
def convertService (name : String) (service : ServiceConfig) :
    Except Fatal (api.ReplicationController × api.Service) := do
  let rc := buildRC name service
  let sc := buildSC name service
  let ports ← buildContainerPorts name service.ports
  let rc := setContainer0Ports rc ports
  let servicePorts ← buildServicePorts name service.ports
  let sc := setServicePorts sc servicePorts
  let policy ← restartPolicyFor name service.restart
  let rc := setRestartPolicy rc policy
  .ok (rc, sc)

/-- `true` exactly when `convertService` reaches the submission calls. -/
def convertOk (name : String) (service : ServiceConfig) : Bool :=
  match convertService name service with
  | .ok _ => true
  | .error _ => false

/-- The cluster API client, abstracted: each `Create` call either succeeds
(`none`) or returns an error message (`some msg`), as decided by the
cluster. -/
structure ApiOracle where
  createRC : api.ReplicationController → Option String
  createSvc : api.Service → Option String

/-- Observable effects of the `ProjectKuber` loop body after construction:
the two `Create` submissions (lines 193 and 199) and the `fmt.Println(err)`
calls on their failure (lines 195 and 201). -/
inductive Event
  | submitRC (name : String)
  | submitSvc (name : String)
  | printErr (msg : String)
deriving DecidableEq

/-- One iteration of the `for name, service := range p.Configs` loop
(lines 110-203): run the construction, which on `logrus.Fatalf` kills the
process before any submission (empty trace, `some` fatal); otherwise
submit the replication controller, print a failure, submit the service,
print a failure — a submission failure never aborts the iteration. -/
def processService (o : ApiOracle) (name : String) (service : ServiceConfig) :
    List Event × Option Fatal :=
  match convertService name service with
  | .error f => ([], some f)
  | .ok (rc, sc) =>
    let rcEvents : List Event :=
      match o.createRC rc with
      | some e => [.submitRC name, .printErr e]
      | none => [.submitRC name]
    let svcEvents : List Event :=
      match o.createSvc sc with
      | some e => [.submitSvc name, .printErr e]
      | none => [.submitSvc name]
    (rcEvents ++ svcEvents, none)

/-- The whole `ProjectKuber` service loop over the parsed configs (as an
association list, since Go map iteration order is unspecified): a fatal in
one iteration ends the process, keeping the events of earlier iterations;
otherwise every service is processed. -/
def projectKuberLoop (o : ApiOracle) : List (String × ServiceConfig) → List Event × Option Fatal
  | [] => ([], none)
  | (name, service) :: rest =>
    match processService o name service with
    | (evs, some f) => (evs, some f)
    | (evs, none) =>
      let tail := projectKuberLoop o rest
      (evs ++ tail.1, tail.2)

/-- Result of `strings.SplitN(s, "=", 2)`: the whole string when it has no
`=`, otherwise the part before the first `=` and everything after it. -/
def splitEq2 (s : String) : List String :=
  match s.toList.findIdx? (fun c => c = '=') with
  | none => [s]
  | some i => [⟨s.toList.take i⟩, ⟨s.toList.drop (i + 1)⟩]

/-- Go map assignment `m[k] = v` on an association list: overwrite in
place when the key exists, append otherwise. -/
def mapAssign (m : List (String × Int)) (k : String) (v : Int) : List (String × Int) :=
  match m with
  | [] => [(k, v)]
  | (k0, v0) :: rest =>
    if k0 = k then (k, v) :: rest else (k0, v0) :: mapAssign rest k v

/-- The argument loop of `ProjectScale` (lines 426-440): split each
argument on `=`, exit code 2 unless exactly two parts, `Atoi` the count,
exit code 2 on a parse error, else record the service scale. -/
def parseScaleArgs (servicesScale : List (String × Int)) :
    List String → Except (Nat × String) (List (String × Int))
  | [] => .ok servicesScale
  | arg :: rest =>
    match splitEq2 arg with
    | [name, countStr] =>
      match goAtoi countStr with
      | .ok count => parseScaleArgs (mapAssign servicesScale name count) rest
      | .error _ => .error (2, "Invalid scale parameter: bad count")
    | _ => .error (2, s!"Invalid scale parameter: {arg}")

/-- Outcome of `ProjectScale`: either an exit error returned before
`p.Scale` was ever called, or a `p.Scale` invocation with the parsed map
(whose own failure becomes exit code 1, success `none`). -/
inductive ScaleResult
  | earlyExit (code : Nat) (msg : String)
  | scaleCalled (servicesScale : List (String × Int)) (exit : Option (Nat × String))
deriving DecidableEq

/-- `ProjectScale` (lines 424-447): parse all arguments, then call
`p.Scale` (abstracted as `scaleOracle`); a library failure is exit code 1. -/
def projectScale (scaleOracle : Option String) (args : List String) : ScaleResult :=
  match parseScaleArgs [] args with
  | .error (code, msg) => .earlyExit code msg
  | .ok servicesScale =>
    .scaleCalled servicesScale (scaleOracle.map (fun e => (1, e)))

/-- `true` when a scale argument passes both checks of the loop body:
`SplitN` yields two parts and the count parses. -/
def scaleArgOk (arg : String) : Bool :=
  match splitEq2 arg with
  | [_, countStr] =>
    match goAtoi countStr with
    | .ok _ => true
    | .error _ => false
  | _ => false

/-- The `BeforeDeleteCallback` registered by `ProjectDelete`
(lines 375-387), as a function of the `fmt.Scanln` outcome: a read error
is logged and yields `false`; an answer other than exactly `y` or `Y`
yields `false`; otherwise `true`. -/
def beforeDeleteCallback (input : Except String String) : Bool :=
  match input with
  | .error _ => false
  | .ok answer => if answer ≠ "y" ∧ answer ≠ "Y" then false else true

/-- Which of the two channels the foreground `select` of `ProjectUp`
(lines 298-309) receives first: an OS interrupt/termination signal, or the
completed log stream with its error. -/
inductive UpEvent
  | signal
  | logDone (err : Option String)
deriving DecidableEq

/-- Observable actions of the foreground branch of `ProjectUp`. -/
inductive UpAction
  | printStopping
  | cancelContext
  | stopServices
  | cleanupDone
  | fatalExit (msg : String)
deriving DecidableEq

/-- How the `ProjectUp` foreground flow ends: the function returns `nil`
(process exit 0) after receiving `cleanupDone`, or `logrus.Fatal`
terminates the process. -/
inductive UpResult
  | returnsNil
  | fatal (msg : String)
deriving DecidableEq

/-- The foreground branch of `ProjectUp` (`!c.Bool("d")`, lines 289-313):
the `select` runs once on whichever event arrives first.  On a signal:
print, cancel the shared context, run `ProjectStop` synchronously, send
`cleanupDone`; the main flow receives it and returns `nil`.  On log-stream
completion: a non-nil error is `logrus.Fatal`, otherwise `cleanupDone` and
a `nil` return. -/
def projectUpForeground (ev : UpEvent) : List UpAction × UpResult :=
  match ev with
  | .signal => ([.printStopping, .cancelContext, .stopServices, .cleanupDone], .returnsNil)
  | .logDone none => ([.cleanupDone], .returnsNil)
  | .logDone (some e) => ([.fatalExit e], .fatal e)

/-- Outcome of the head of `ProjectRun` (lines 318-331): the fatal guard,
the Go runtime panic from indexing `c.Args()[0]` when the slice is empty,
or the extraction of the service name and command parts. -/
inductive RunOutcome
  | fatal (msg : String)
  | indexPanic
  | run (serviceName : String) (commandParts : List String)
deriving DecidableEq

/-- `ProjectRun` argument handling: `logrus.Fatal("No service specified")`
when exactly one argument, then `c.Args()[0]` (an out-of-range panic on an
empty slice) and `c.Args()[1:]`. -/
def projectRun (args : List String) : RunOutcome :=
  if args.length = 1 then .fatal "No service specified"
  else
    match args with
    | [] => .indexPanic
    | serviceName :: commandParts => .run serviceName commandParts

/-! ## Helper lemmas -/

/-- Inversion for a successful `convertService`: the two descriptors are the
literals with the parsed ports and the mapped restart policy installed. -/
theorem convertService_ok_shape (name : String) (service : ServiceConfig)
    (rc : api.ReplicationController) (sc : api.Service)
    (h : convertService name service = .ok (rc, sc)) :
    ∃ ports servicePorts policy,
      buildContainerPorts name service.ports = .ok ports ∧
      buildServicePorts name service.ports = .ok servicePorts ∧
      restartPolicyFor name service.restart = .ok policy ∧
      rc = setRestartPolicy (setContainer0Ports (buildRC name service) ports) policy ∧
      sc = setServicePorts (buildSC name service) servicePorts := by
  unfold convertService at h
  cases hcp : buildContainerPorts name service.ports with
  | error f => rw [hcp] at h; exact Except.noConfusion h
  | ok ports =>
    rw [hcp] at h
    cases hsp : buildServicePorts name service.ports with
    | error f => rw [hsp] at h; exact Except.noConfusion h
    | ok servicePorts =>
      rw [hsp] at h
      cases hpol : restartPolicyFor name service.restart with
      | error f => rw [hpol] at h; exact Except.noConfusion h
      | ok policy =>
        rw [hpol] at h
        have h2 : Except.ok (ε := Fatal)
            (setRestartPolicy (setContainer0Ports (buildRC name service) ports) policy,
              setServicePorts (buildSC name service) servicePorts) = Except.ok (rc, sc) := h
        injection h2 with h3
        exact ⟨ports, servicePorts, policy, rfl, rfl, rfl,
          (congrArg Prod.fst h3).symm, (congrArg Prod.snd h3).symm⟩

/-- `true` exactly when `strconv.Atoi` returns a non-nil error. -/
def atoiFails (s : String) : Bool :=
  match goAtoi s with
  | .ok _ => false
  | .error _ => true

/-- The default branch of the restart-policy switch fires exactly on the
four recognized strings' complement. -/
theorem restartPolicyFor_error (name restart : String)
    (h1 : restart ≠ "") (h2 : restart ≠ "always")
    (h3 : restart ≠ "no") (h4 : restart ≠ "on-failure") :
    restartPolicyFor name restart = .error (.unknownRestartPolicy restart name) := by
  unfold restartPolicyFor
  rw [if_neg (fun h => h.elim h1 h2), if_neg h3, if_neg h4]

/-- An unrecognized restart policy makes the whole per-service
construction fatal. -/
theorem convertService_error_of_badRestart (name : String) (service : ServiceConfig)
    (h1 : service.restart ≠ "") (h2 : service.restart ≠ "always")
    (h3 : service.restart ≠ "no") (h4 : service.restart ≠ "on-failure") :
    ∃ f, convertService name service = .error f := by
  unfold convertService
  cases hcp : buildContainerPorts name service.ports with
  | error f => exact ⟨f, rfl⟩
  | ok ports =>
    cases hsp : buildServicePorts name service.ports with
    | error f => exact ⟨f, rfl⟩
    | ok servicePorts =>
      rw [restartPolicyFor_error name service.restart h1 h2 h3 h4]
      exact ⟨.unknownRestartPolicy service.restart name, rfl⟩

/-- A port string that `Atoi` rejects makes the container-port loop fatal. -/
theorem buildContainerPorts_error_of_badPort (serviceName : String) (ports : List String)
    (h : ∃ p ∈ ports, atoiFails p = true) :
    ∃ f, buildContainerPorts serviceName ports = .error f := by
  induction ports with
  | nil => simp at h
  | cons port rest ih =>
    unfold buildContainerPorts
    cases ha : goAtoi port with
    | error e => exact ⟨.invalidPort port serviceName, rfl⟩
    | ok n =>
      obtain ⟨p, hp, hfail⟩ := h
      rcases List.mem_cons.mp hp with rfl | hrest
      · simp [atoiFails, ha] at hfail
      · obtain ⟨f, hf⟩ := ih ⟨p, hrest, hfail⟩
        rw [hf]
        exact ⟨f, rfl⟩

/-- A port string that `Atoi` rejects makes the whole per-service
construction fatal. -/
theorem convertService_error_of_badPort (name : String) (service : ServiceConfig)
    (h : ∃ p ∈ service.ports, atoiFails p = true) :
    ∃ f, convertService name service = .error f := by
  obtain ⟨f, hf⟩ := buildContainerPorts_error_of_badPort name service.ports h
  unfold convertService
  rw [hf]
  exact ⟨f, rfl⟩

/-- A fatal construction yields an empty submission trace. -/
theorem processService_of_error (o : ApiOracle) (name : String) (service : ServiceConfig)
    (f : Fatal) (h : convertService name service = .error f) :
    processService o name service = ([], some f) := by
  unfold processService
  rw [h]

/-! ## Concrete inputs for witnesses -/

/-- A valid service configuration. -/
def svcWeb : ServiceConfig := { image := "nginx", ports := ["80"], restart := "" }

/-- A second valid service configuration. -/
def svcDb : ServiceConfig := { image := "postgres", ports := ["5432"], restart := "no" }

/-- A service with a restart policy outside the recognized set. -/
def svcBadRestart : ServiceConfig :=
  { image := "nginx", ports := ["80"], restart := "unless-stopped" }

/-- A service with a non-numeric port string. -/
def svcBadPort : ServiceConfig := { image := "nginx", ports := ["80", "http"], restart := "" }

/-- A cluster whose submissions always succeed. -/
def oracleOk : ApiOracle := { createRC := fun _ => none, createSvc := fun _ => none }

/-- A cluster whose submissions always fail. -/
def oracleFail : ApiOracle :=
  { createRC := fun _ => some "connection refused"
    createSvc := fun _ => some "connection refused" }

/-! ## Claims -/

/-- C1: for every service whose restart-policy string is not one of `""`,
`"always"`, `"no"`, `"on-failure"`, the conversion terminates fatally
(`logrus.Fatalf`) before any API submission — replication-controller or
service creation — is made for that service: the submission trace is empty
and the fatal is set, whatever the cluster answers. -/
theorem badRestart_fatal_before_submission (o : ApiOracle) (name : String)
    (service : ServiceConfig)
    (h1 : service.restart ≠ "") (h2 : service.restart ≠ "always")
    (h3 : service.restart ≠ "no") (h4 : service.restart ≠ "on-failure") :
    (processService o name service).1 = [] ∧
    (processService o name service).2.isSome = true := by
  obtain ⟨f, hf⟩ := convertService_error_of_badRestart name service h1 h2 h3 h4
  rw [processService_of_error o name service f hf]
  exact ⟨rfl, rfl⟩

/-- Witness for C1 at a concrete service with restart `unless-stopped`. -/
theorem badRestart_fatal_before_submission_witness :
    (processService oracleOk "web" svcBadRestart).1 = [] ∧
    (processService oracleOk "web" svcBadRestart).2.isSome = true :=
  badRestart_fatal_before_submission oracleOk "web" svcBadRestart
    (by decide) (by decide) (by decide) (by decide)

/-- C2: for every service whose port list contains a string `strconv.Atoi`
rejects (in particular any non-decimal-integer string), the conversion
terminates fatally before any API submission is made for that service. -/
theorem badPort_fatal_before_submission (o : ApiOracle) (name : String)
    (service : ServiceConfig)
    (h : ∃ p ∈ service.ports, atoiFails p = true) :
    (processService o name service).1 = [] ∧
    (processService o name service).2.isSome = true := by
  obtain ⟨f, hf⟩ := convertService_error_of_badPort name service h
  rw [processService_of_error o name service f hf]
  exact ⟨rfl, rfl⟩

/-- Witness for C2 at a concrete service with port list `["80", "http"]`. -/
theorem badPort_fatal_before_submission_witness :
    (processService oracleOk "web" svcBadPort).1 = [] ∧
    (processService oracleOk "web" svcBadPort).2.isSome = true :=
  badPort_fatal_before_submission oracleOk "web" svcBadPort (by decide)

/-- C5: the restart-policy mapping is exactly: `""` and `"always"` map to
`Always`, `"no"` to `Never`, `"on-failure"` to `OnFailure`, and every
other string takes the fatal default branch, yielding no policy. -/
theorem restartPolicy_mapping_exact (serviceName restart : String) :
    (restart = "" ∨ restart = "always" →
      restartPolicyFor serviceName restart = .ok api.RestartPolicyAlways) ∧
    (restart = "no" →
      restartPolicyFor serviceName restart = .ok api.RestartPolicyNever) ∧
    (restart = "on-failure" →
      restartPolicyFor serviceName restart = .ok api.RestartPolicyOnFailure) ∧
    (restart ≠ "" → restart ≠ "always" → restart ≠ "no" → restart ≠ "on-failure" →
      restartPolicyFor serviceName restart =
        .error (.unknownRestartPolicy restart serviceName)) := by
  refine ⟨?_, ?_, ?_, ?_⟩
  · intro h
    unfold restartPolicyFor
    rw [if_pos h]
  · intro h
    subst h
    rfl
  · intro h
    subst h
    rfl
  · intro h1 h2 h3 h4
    exact restartPolicyFor_error serviceName restart h1 h2 h3 h4

/-- Witness for C5: the mapping evaluated on all four recognized strings
and one unrecognized string. -/
theorem restartPolicy_mapping_exact_witness :
    restartPolicyFor "web" "" = .ok api.RestartPolicyAlways ∧
    restartPolicyFor "web" "always" = .ok api.RestartPolicyAlways ∧
    restartPolicyFor "web" "no" = .ok api.RestartPolicyNever ∧
    restartPolicyFor "web" "on-failure" = .ok api.RestartPolicyOnFailure ∧
    restartPolicyFor "web" "unless-stopped" =
      .error (.unknownRestartPolicy "unless-stopped" "web") :=
  ⟨(restartPolicy_mapping_exact "web" "").1 (Or.inl rfl),
   (restartPolicy_mapping_exact "web" "always").1 (Or.inr rfl),
   (restartPolicy_mapping_exact "web" "no").2.1 rfl,
   (restartPolicy_mapping_exact "web" "on-failure").2.2.1 rfl,
   (restartPolicy_mapping_exact "web" "unless-stopped").2.2.2
     (by decide) (by decide) (by decide) (by decide)⟩

/-- The port list of the container at index 0 of the workload descriptor's
pod template (the container the code configures). -/
def container0Ports (rc : api.ReplicationController) : List api.ContainerPort :=
  match rc.spec.template.spec.containers with
  | [] => []
  | c :: _ => c.ports

/-- A successful service-port loop returns exactly the parses of the port
strings, in order. -/
theorem buildServicePorts_ok_map (serviceName : String) (ports : List String)
    (servicePorts : List api.ServicePort)
    (h : buildServicePorts serviceName ports = .ok servicePorts) :
    ports.map goAtoi = servicePorts.map (fun p => Except.ok p.port) := by
  induction ports generalizing servicePorts with
  | nil =>
    unfold buildServicePorts at h
    injection h with h
    subst h
    rfl
  | cons port rest ih =>
    unfold buildServicePorts at h
    cases ha : goAtoi port with
    | error e => rw [ha] at h; exact Except.noConfusion h
    | ok n =>
      rw [ha] at h
      cases hr : buildServicePorts serviceName rest with
      | error f => rw [hr] at h; exact Except.noConfusion h
      | ok ps =>
        rw [hr] at h
        injection h with h
        subst h
        simp [ha, ih ps hr]

/-- The two port loops parse the same strings, so their outputs agree
pointwise on the port numbers. -/
theorem buildPorts_mirror (serviceName : String) (ports : List String)
    (cps : List api.ContainerPort) (sps : List api.ServicePort)
    (h1 : buildContainerPorts serviceName ports = .ok cps)
    (h2 : buildServicePorts serviceName ports = .ok sps) :
    cps.map (fun p => p.containerPort) = sps.map (fun p => p.port) := by
  induction ports generalizing cps sps with
  | nil =>
    unfold buildContainerPorts at h1
    unfold buildServicePorts at h2
    injection h1 with h1
    injection h2 with h2
    subst h1
    subst h2
    rfl
  | cons port rest ih =>
    unfold buildContainerPorts at h1
    unfold buildServicePorts at h2
    cases ha : goAtoi port with
    | error e => rw [ha] at h1; exact Except.noConfusion h1
    | ok n =>
      rw [ha] at h1
      rw [ha] at h2
      cases hc : buildContainerPorts serviceName rest with
      | error f => rw [hc] at h1; exact Except.noConfusion h1
      | ok cs =>
        cases hs : buildServicePorts serviceName rest with
        | error f => rw [hs] at h2; exact Except.noConfusion h2
        | ok ss =>
          rw [hc] at h1
          rw [hs] at h2
          injection h1 with h1
          injection h2 with h2
          subst h1
          subst h2
          simp [ih cs ss hc hs]

/-- C3: for every service successfully converted, the workload-replication
descriptor and the network-service descriptor carry identical label
selectors, namely the map `{"service": name}`. -/
theorem selectors_identical (name : String) (service : ServiceConfig)
    (rc : api.ReplicationController) (sc : api.Service)
    (h : convertService name service = .ok (rc, sc)) :
    rc.spec.selector = sc.spec.selector ∧ rc.spec.selector = [("service", name)] := by
  obtain ⟨ports, servicePorts, policy, _, _, _, hrc, hsc⟩ :=
    convertService_ok_shape name service rc sc h
  subst hrc
  subst hsc
  exact ⟨rfl, rfl⟩

/-- Equality of `Except` values is decidable when it is on both sides. -/
instance {ε α : Type} [DecidableEq ε] [DecidableEq α] : DecidableEq (Except ε α) := fun a b =>
  match a, b with
  | .error e1, .error e2 =>
    if h : e1 = e2 then .isTrue (by rw [h]) else .isFalse (fun hc => h (Except.error.inj hc))
  | .error _, .ok _ => .isFalse Except.noConfusion
  | .ok _, .error _ => .isFalse Except.noConfusion
  | .ok a1, .ok a2 =>
    if h : a1 = a2 then .isTrue (by rw [h]) else .isFalse (fun hc => h (Except.ok.inj hc))

/-- The workload descriptor produced for `svcWeb`. -/
def rcWeb : api.ReplicationController :=
  setRestartPolicy (setContainer0Ports (buildRC "web" svcWeb) [{ containerPort := 80 }])
    api.RestartPolicyAlways

/-- The network descriptor produced for `svcWeb`. -/
def scWeb : api.Service := setServicePorts (buildSC "web" svcWeb) [{ port := 80 }]

/-- Witness for C3 at the concrete service `svcWeb`. -/
theorem selectors_identical_witness :
    rcWeb.spec.selector = scWeb.spec.selector ∧ rcWeb.spec.selector = [("service", "web")] :=
  selectors_identical "web" svcWeb rcWeb scWeb (by decide)

/-- C4: for every service whose conversion succeeds (all port strings
parse), the service-port list of the network descriptor mirrors the
container-port list of the workload descriptor: same length, equal at
every index, and both equal to the parses of the service's port strings. -/
theorem servicePorts_mirror_containerPorts (name : String) (service : ServiceConfig)
    (rc : api.ReplicationController) (sc : api.Service)
    (h : convertService name service = .ok (rc, sc)) :
    sc.spec.ports.length = (container0Ports rc).length ∧
    (container0Ports rc).map (fun p => p.containerPort) =
      sc.spec.ports.map (fun p => p.port) ∧
    service.ports.map goAtoi = sc.spec.ports.map (fun p => Except.ok p.port) := by
  obtain ⟨cps, sps, policy, hcp, hsp, _, hrc, hsc⟩ :=
    convertService_ok_shape name service rc sc h
  subst hrc
  subst hsc
  have e1 : container0Ports
      (setRestartPolicy (setContainer0Ports (buildRC name service) cps) policy) = cps := rfl
  have e2 : (setServicePorts (buildSC name service) sps).spec.ports = sps := rfl
  rw [e1, e2]
  have hm := buildPorts_mirror name service.ports cps sps hcp hsp
  refine ⟨?_, hm, buildServicePorts_ok_map name service.ports sps hsp⟩
  have hl := congrArg List.length hm
  simpa using hl.symm

/-- Witness for C4 at the concrete service `svcWeb`. -/
theorem servicePorts_mirror_containerPorts_witness :
    scWeb.spec.ports.length = (container0Ports rcWeb).length ∧
    (container0Ports rcWeb).map (fun p => p.containerPort) =
      scWeb.spec.ports.map (fun p => p.port) ∧
    svcWeb.ports.map goAtoi = scWeb.spec.ports.map (fun p => Except.ok p.port) :=
  servicePorts_mirror_containerPorts "web" svcWeb rcWeb scWeb (by decide)

/-- A service that converts cleanly is submitted to both APIs, whatever
the cluster answers, and produces no fatal. -/
theorem processService_ok_submits (o : ApiOracle) (name : String) (service : ServiceConfig)
    (h : convertOk name service = true) :
    (processService o name service).2 = none ∧
    Event.submitRC name ∈ (processService o name service).1 ∧
    Event.submitSvc name ∈ (processService o name service).1 := by
  unfold convertOk at h
  cases hc : convertService name service with
  | error f => rw [hc] at h; exact Bool.noConfusion h
  | ok p =>
    obtain ⟨rc, sc⟩ := p
    unfold processService
    rw [hc]
    refine ⟨rfl, ?_, ?_⟩
    · cases ho1 : o.createRC rc <;> cases ho2 : o.createSvc sc <;> simp [ho1, ho2]
    · cases ho1 : o.createRC rc <;> cases ho2 : o.createSvc sc <;> simp [ho1, ho2]

/-- One loop step on a non-fatal service: its events, then the rest. -/
theorem projectKuberLoop_cons_ok (o : ApiOracle) (name : String) (service : ServiceConfig)
    (rest : List (String × ServiceConfig)) (evs : List Event)
    (h : processService o name service = (evs, none)) :
    projectKuberLoop o ((name, service) :: rest) =
      (evs ++ (projectKuberLoop o rest).1, (projectKuberLoop o rest).2) := by
  have e : projectKuberLoop o ((name, service) :: rest) =
      match processService o name service with
      | (evs, some f) => (evs, some f)
      | (evs, none) => (evs ++ (projectKuberLoop o rest).1, (projectKuberLoop o rest).2) := rfl
  rw [e, h]

/-- C7: a failure returned by either cluster API submission for one
service is printed and does not abort the loop: as long as every service
constructs without a fatal, every service in the descriptor is submitted
to both APIs — whatever failures the cluster returns. -/
theorem submissionFailure_nonAborting (o : ApiOracle)
    (configs : List (String × ServiceConfig))
    (h : ∀ x ∈ configs, convertOk x.1 x.2 = true) :
    (projectKuberLoop o configs).2 = none ∧
    ∀ x ∈ configs,
      Event.submitRC x.1 ∈ (projectKuberLoop o configs).1 ∧
      Event.submitSvc x.1 ∈ (projectKuberLoop o configs).1 := by
  induction configs with
  | nil =>
    refine ⟨rfl, ?_⟩
    intro x hx
    cases hx
  | cons c rest ih =>
    obtain ⟨name, service⟩ := c
    have hc := h _ (List.mem_cons_self _ _)
    have hrest : ∀ x ∈ rest, convertOk x.1 x.2 = true :=
      fun x hx => h x (List.mem_cons_of_mem _ hx)
    obtain ⟨h2, hrc, hsvc⟩ := processService_ok_submits o name service hc
    rcases hp : processService o name service with ⟨evs, fat⟩
    rw [hp] at h2 hrc hsvc
    have hfat : fat = none := h2
    subst hfat
    have hrc2 : Event.submitRC name ∈ evs := hrc
    have hsvc2 : Event.submitSvc name ∈ evs := hsvc
    obtain ⟨ih2, ihmem⟩ := ih hrest
    rw [projectKuberLoop_cons_ok o name service rest evs hp]
    refine ⟨ih2, ?_⟩
    intro x hx
    rcases List.mem_cons.mp hx with rfl | hxr
    · exact ⟨List.mem_append_left _ hrc2, List.mem_append_left _ hsvc2⟩
    · exact ⟨List.mem_append_right _ (ihmem x hxr).1,
             List.mem_append_right _ (ihmem x hxr).2⟩

/-- Two valid services, used by the C7 witness. -/
def cfgsWebDb : List (String × ServiceConfig) := [("web", svcWeb), ("db", svcDb)]

/-- Witness for C7: with a cluster that fails every submission, both
services are still submitted to both APIs and no fatal occurs. -/
theorem submissionFailure_nonAborting_witness :
    (projectKuberLoop oracleFail cfgsWebDb).2 = none ∧
    Event.submitRC "web" ∈ (projectKuberLoop oracleFail cfgsWebDb).1 ∧
    Event.submitSvc "web" ∈ (projectKuberLoop oracleFail cfgsWebDb).1 ∧
    Event.submitRC "db" ∈ (projectKuberLoop oracleFail cfgsWebDb).1 ∧
    Event.submitSvc "db" ∈ (projectKuberLoop oracleFail cfgsWebDb).1 := by
  have h := submissionFailure_nonAborting oracleFail cfgsWebDb (by decide)
  refine ⟨h.1, ?_, ?_, ?_, ?_⟩
  · exact (h.2 ("web", svcWeb) (by decide)).1
  · exact (h.2 ("web", svcWeb) (by decide)).2
  · exact (h.2 ("db", svcDb) (by decide)).1
  · exact (h.2 ("db", svcDb) (by decide)).2

/-- The exit code of an early return of `ProjectScale`, before `p.Scale`
was invoked; `none` when `p.Scale` was reached. -/
def scaleExitCode : ScaleResult → Option Nat
  | .earlyExit code _ => some code
  | .scaleCalled _ _ => none

/-- The exit code carried by an error of the scale argument loop. -/
def parseErrCode : Except (Nat × String) (List (String × Int)) → Option Nat
  | .error (c, _) => some c
  | .ok _ => none

/-- A malformed argument anywhere in the list stops the scale loop with
exit code 2. -/
theorem parseScaleArgs_error_of_bad (args : List String)
    (h : ∃ arg ∈ args, scaleArgOk arg = false) :
    ∀ acc, parseErrCode (parseScaleArgs acc args) = some 2 := by
  induction args with
  | nil => obtain ⟨arg, hmem, _⟩ := h; cases hmem
  | cons arg rest ih =>
    intro acc
    unfold parseScaleArgs
    split
    next name countStr heq =>
      split
      next count hcount =>
        obtain ⟨a, hmem, hfail⟩ := h
        rcases List.mem_cons.mp hmem with rfl | hr
        · unfold scaleArgOk at hfail
          simp only [heq, hcount] at hfail
          exact Bool.noConfusion hfail
        · exact ih ⟨a, hr, hfail⟩ (mapAssign acc name count)
      next e hcount => rfl
    next hne => rfl

/-- C6: if some argument to `ProjectScale` does not have the form
`name=integer` (no `=` separator, or a count `Atoi` rejects), the function
returns an exit error with code 2 before `p.Scale` is ever invoked —
whatever the library would have answered. -/
theorem badScaleArg_exit2_noScale (scaleOracle : Option String) (args : List String)
    (h : ∃ arg ∈ args, scaleArgOk arg = false) :
    scaleExitCode (projectScale scaleOracle args) = some 2 := by
  have hp := parseScaleArgs_error_of_bad args h []
  unfold projectScale
  cases he : parseScaleArgs [] args with
  | error p =>
    obtain ⟨c, m⟩ := p
    rw [he] at hp
    have hc : c = 2 := Option.some.inj hp
    subst hc
    rfl
  | ok m =>
    rw [he] at hp
    exact Option.noConfusion hp

/-- Witness for C6 at the concrete argument list `["db", "web=3"]`,
whose first argument has no `=`. -/
theorem badScaleArg_exit2_noScale_witness :
    scaleExitCode (projectScale none ["db", "web=3"]) = some 2 :=
  badScaleArg_exit2_noScale none ["db", "web=3"] (by decide)

/-- C8: the delete confirmation callback returns `true` if and only if the
line read from input is exactly `y` or `Y`; any other input, and any read
error, yields `false`. -/
theorem deleteConfirmation_iff (input : Except String String) :
    beforeDeleteCallback input = true ↔ (input = .ok "y" ∨ input = .ok "Y") := by
  cases input with
  | error e => simp [beforeDeleteCallback]
  | ok answer =>
    by_cases hy : answer = "y"
    · subst hy; simp [beforeDeleteCallback]
    · by_cases hY : answer = "Y"
      · subst hY; simp [beforeDeleteCallback]
      · simp [beforeDeleteCallback, hy, hY]

/-- C9: in a foregrounded `up`, on receiving an interrupt or termination
signal the handler cancels the shared context, invokes the stop action
exactly once, and the function returns `nil`, so the process exits 0. -/
theorem upSignal_stopsOnce_exitZero :
    (projectUpForeground UpEvent.signal).1.count UpAction.stopServices = 1 ∧
    UpAction.cancelContext ∈ (projectUpForeground UpEvent.signal).1 ∧
    (projectUpForeground UpEvent.signal).2 = UpResult.returnsNil := by
  decide

/-- C10: the `No service specified` fatal guard of `ProjectRun` fires if
and only if the argument list has exactly one element; on an empty list
the guard does not fire and indexing element 0 of the empty argument
slice panics. -/
theorem projectRun_guard (args : List String) :
    (projectRun args = .fatal "No service specified" ↔ args.length = 1) ∧
    projectRun ([] : List String) = .indexPanic := by
  constructor
  · constructor
    · intro h
      by_contra hlen
      unfold projectRun at h
      rw [if_neg hlen] at h
      cases args with
      | nil => exact RunOutcome.noConfusion h
      | cons a rest => exact RunOutcome.noConfusion h
    · intro h
      unfold projectRun
      rw [if_pos h]
  · rfl
